import Mathlib

/-!
Verification development for the Palette 2 MMU host driver
(`klippy/extras/palette2.py`): a shallow embedding of the Omega protocol
engine (print-session state, opcode handlers, dispatcher, parameter
matcher, reader-loop iteration) with theorems about the claims made by
its specification.

Python-to-Lean modelling conventions used throughout:
* machine integers and timestamps are `Int`/`Nat`, percentages and
  feedrates are `Rat` (the code never does float arithmetic that the
  claims depend on, only parse/store/append);
* fallible Python operations (list indexing, `int()`/`float()` parsing)
  return `Except PyErr`/`Option`;
* side effects (queue puts, `run_script`, logging, `respond_info`) are
  reified as an ordered `List Effect` returned alongside the new state;
* an uncaught Python exception inside a handler is an `Except.error`
  bubbling out of the handler's result.
-/

namespace Palette2

/-- Python exceptions that the embedded code can raise. -/
inductive PyErr where
  | indexError
  | valueError
  | typeError
  | commandError (msg : String)
deriving DecidableEq, Repr

/-- Reified side effects, in the order the source performs them.
`putQueue` models `self.write_queue.put(x)` (the argument can be `None`
in the source, hence `Option String`); `runScript` models
`self.gcode.run_script`; `respondInfo` models `gcmd.respond_info`;
the log constructors model the `logging` calls; `disconnect` models a
call to `cmd_Disconnect`. -/
inductive Effect where
  | putQueue (line : Option String)
  | runScript (script : String)
  | respondInfo (msg : String)
  | logError (msg : String)
  | logWarning (msg : String)
  | logInfo (msg : String)
  | logDebug (msg : String)
  | disconnect
deriving DecidableEq, Repr

/-- A ping/pong record: `{ "number": number, "percent": percent }`. -/
structure PingRec where
  number : Nat
  percent : Rat
deriving DecidableEq, Repr

/-- The mutable print-session state of the `Palette2` object (the
fields touched by the Omega protocol engine). -/
structure P2State where
  files : List String
  omega_algorithms : List String
  omega_algorithms_counter : Nat
  omega_splices : List (Int × String)
  omega_splices_counter : Nat
  omega_pings : List PingRec
  omega_pongs : List PingRec
  omega_current_ping : Option String
  omega_header : List (Option String)
  omega_header_counter : Nat
  omega_last_command : String
  /-- set by `cmd_O25`; note the distinct spelling from the
  `omega_drivers` attribute that `_reset` assigns. -/
  omega_drives : List String
  /-- assigned (only) by `_reset`; never read anywhere in the source. -/
  omega_drivers : List String
  is_printing : Bool
deriving DecidableEq, Repr

/-- External collaborators and configuration visible to the handlers:
the `virtual_sdcard.get_file_list` result and the two configured
feedrate fractions. -/
structure Env where
  fileList : List (String × Nat)
  feedrate_splice : Rat
  feedrate_normal : Rat

/-! ### Python primitive operations -/

/-- Python list indexing `l[i]` for a non-negative index. -/
def pyListGetN {α : Type} (l : List α) (i : Nat) : Except PyErr α :=
  match l.get? i with
  | some a => .ok a
  | none => .error .indexError

/-- Python list indexing `l[i]` with an `Int` index: negative indices
address from the end (`l[-1]` is the last element); an index outside
`[-len, len)` raises `IndexError`. -/
def pyIndexGet {α : Type} (l : List α) (i : Int) : Except PyErr α :=
  if i < 0 then
    let j : Int := (l.length : Int) + i
    if j < 0 then .error .indexError else pyListGetN l j.toNat
  else if i < (l.length : Int) then pyListGetN l i.toNat
  else .error .indexError

/-- Python string slicing `s[a:]` (never raises). -/
def pyStrDrop (s : String) (a : Nat) : String :=
  String.mk (s.data.drop a)

/-- Python string slicing `s[a:b]` (never raises). -/
def pySlice (s : String) (a b : Nat) : String :=
  String.mk ((s.data.take b).drop a)

/-- Python string slicing `s[:b]` (never raises). -/
def pyStrTake (s : String) (b : Nat) : String :=
  String.mk (s.data.take b)

/-- Python string indexing `s[i]` (raises on out-of-range). -/
def pyStrGet (s : String) (i : Nat) : Except PyErr Char :=
  match s.data.get? i with
  | some c => .ok c
  | none => .error .indexError

/-- Value of a hexadecimal digit character. -/
def hexVal (c : Char) : Option Nat :=
  if '0' ≤ c ∧ c ≤ '9' then some (c.toNat - '0'.toNat)
  else if 'a' ≤ c ∧ c ≤ 'f' then some (c.toNat - 'a'.toNat + 10)
  else if 'A' ≤ c ∧ c ≤ 'F' then some (c.toNat - 'A'.toNat + 10)
  else none

/-- Accumulate the value of a digit string in the given base. -/
def digitsValGo (base : Nat) (acc : Nat) : List Char → Option Nat
  | [] => some acc
  | c :: t =>
    match hexVal c with
    | some d => if d < base then digitsValGo base (acc * base + d) t else none
    | none => none

/-- Value of a non-empty digit string in the given base. -/
def digitsVal (base : Nat) (cs : List Char) : Option Nat :=
  match cs with
  | [] => none
  | _ => digitsValGo base 0 cs

/-- Python `int(s, base)` on its core input shapes: an optional sign
followed by at least one digit of the base.  (Surrounding whitespace
and underscore separators, which the device protocol never produces,
are not modelled.)  `none` models `ValueError`. -/
def pyInt (base : Nat) (s : String) : Option Int :=
  match s.data with
  | [] => none
  | c :: t =>
    if c = '-' then (digitsVal base t).map (fun n => -(n : Int))
    else if c = '+' then (digitsVal base t).map (fun n => (n : Int))
    else (digitsVal base (c :: t)).map (fun n => (n : Int))

/-- Fraction-aware body of `float(s)`: digits, optionally followed by a
point and more digits, with at least one digit present. -/
def pyFloatBody (cs : List Char) : Option Rat :=
  let ip := cs.takeWhile Char.isDigit
  let rest := cs.dropWhile Char.isDigit
  match rest with
  | [] => if ip.isEmpty then none else some (((digitsValGo 10 0 ip).getD 0 : Nat) : Rat)
  | '.' :: fr =>
    if fr.all Char.isDigit && !(ip.isEmpty && fr.isEmpty) then
      some ((((digitsValGo 10 0 ip).getD 0 : Nat) : Rat)
        + (((digitsValGo 10 0 fr).getD 0 : Nat) : Rat) / (10 : Rat) ^ fr.length)
    else none
  | _ => none

/-- Python `float(s)` on its core input shapes: an optional sign, then
digits with an optional fractional part (exponents, `inf`, `nan` and
surrounding whitespace are not modelled; the device protocol sends
plain decimals).  `none` models `ValueError`. -/
def pyFloat (s : String) : Option Rat :=
  match s.data with
  | [] => none
  | c :: t =>
    if c = '-' then (pyFloatBody t).map Neg.neg
    else if c = '+' then pyFloatBody t
    else pyFloatBody (c :: t)

/-- One step of whitespace splitting: `acc` is the (reversed) current
token. -/
def splitWsGo : List Char → List Char → List String
  | [], acc => if acc.isEmpty then [] else [String.mk acc.reverse]
  | c :: t, acc =>
    if c = ' ' then
      if acc.isEmpty then splitWsGo t [] else String.mk acc.reverse :: splitWsGo t []
    else splitWsGo t (c :: acc)

/-- Python `s.split()` (no argument): split on runs of whitespace,
dropping empty tokens.  The protocol's separator is the space
character. -/
def pySplit (s : String) : List String :=
  splitWsGo s.data []

/-- Does `needle` occur at the head of `hay`? -/
def charsLeadMatch : List Char → List Char → Bool
  | [], _ => true
  | _ :: _, [] => false
  | a :: as, b :: bs => a == b && charsLeadMatch as bs

/-- Does `needle` occur anywhere in `hay`? -/
def charsFindSub : List Char → List Char → Bool
  | [], needle => needle.isEmpty
  | h :: t, needle => charsLeadMatch needle (h :: t) || charsFindSub t needle

/-- Python `needle in hay` on strings (substring containment). -/
def strContainsSub (hay needle : String) : Bool :=
  charsFindSub hay.data needle.data

/-- Lexicographic comparison of character lists by code point. -/
def pyCharsLt : List Char → List Char → Bool
  | [], [] => false
  | [], _ :: _ => true
  | _ :: _, [] => false
  | a :: as, b :: bs => a < b || (a == b && pyCharsLt as bs)

/-- Python `a < b` on strings: lexicographic by code point. -/
def pyStrLt (a b : String) : Bool :=
  pyCharsLt a.data b.data

/-! ### Protocol constants -/

def COMMAND_HEARTBEAT : String := "O99"

def COMMAND_FILENAME : String := "O51"

def COMMAND_FILENAMES_DONE : String := "O52"

def COMMAND_FIRMWARE : String := "O50"

def COMMAND_PING : String := "O31"

def HEARTBEAT_SEND : Int := 5

def HEARTBEAT_TIMEOUT : Int := 11

def INFO_NOT_CONNECTED : String := "Palette 2 is not connected, connect first"

/-! ### Session state lifecycle -/

/-- Model of `_reset`: re-initialise the print-session fields.  Note the
source's spelling: it assigns `self.omega_drivers = []`, while the
drive map produced by `cmd_O25` lives in the distinct attribute
`self.omega_drives`, which `_reset` does not touch. -/
def reset (st : P2State) : P2State :=
  { st with
    files := []
    omega_algorithms := []
    omega_algorithms_counter := 0
    omega_splices := []
    omega_splices_counter := 0
    omega_pings := []
    omega_pongs := []
    omega_current_ping := none
    omega_header := List.replicate 9 none
    omega_header_counter := 0
    omega_last_command := ""
    omega_drivers := [] }

/-- The state after `__init__` (which sets `omega_header`, calls
`_reset` and sets `is_printing = False`; `omega_drives` does not exist
yet in Python, modelled as `[]`). -/
def initState : P2State :=
  { files := []
    omega_algorithms := []
    omega_algorithms_counter := 0
    omega_splices := []
    omega_splices_counter := 0
    omega_pings := []
    omega_pongs := []
    omega_current_ping := none
    omega_header := List.replicate 9 none
    omega_header_counter := 0
    omega_last_command := ""
    omega_drives := []
    omega_drivers := []
    is_printing := false }

/-! ### Printer-originated Omega command handlers (`cmd_O*`)

These handlers receive a `gcmd`; the only datum they use is
`gcmd.get_commandline()`, passed here as the `cl : String` argument.
They cannot raise (any fallible part is wrapped in `try`/`except` in
the source), so they return plain `P2State × List Effect`. -/

/-- Handler `cmd_O21`: new print version header; resets the session, stores the
command line in header slot 0 and marks printing.  (`omega_header[0] =`
is an in-range assignment on a 9-slot list, modelled with
`List.set`.) -/
def cmd_O21 (st : P2State) (cl : String) : P2State × List Effect :=
  let st1 := reset st
  ({ st1 with
      omega_header := st1.omega_header.set 0 (some cl)
      is_printing := true },
   [.logDebug "Omega version"])

/-- Handler `cmd_O30`: splice ingestion.  `param_drive = cl[5:6]`,
`param_distance = cl[8:]`; an `int()` parse failure is caught and
reported via `respond_info`. -/
def cmd_O30 (st : P2State) (cl : String) : P2State × List Effect :=
  let param_drive := pySlice cl 5 6
  let param_distance := pyStrDrop cl 8
  match pyInt 10 param_drive with
  | some d =>
    ({ st with omega_splices := st.omega_splices ++ [(d, param_distance)] },
     [.logDebug "Omega splice command"])
  | none => (st, [.respondInfo "Incorrectly formatted splice command"])

/-- Handler `cmd_O32`: algorithm ingestion; appends `cl[4:]`. -/
def cmd_O32 (st : P2State) (cl : String) : P2State × List Effect :=
  ({ st with omega_algorithms := st.omega_algorithms ++ [pyStrDrop cl 4] },
   [.logDebug "Omega algorithm"])

/-! ### `cmd_O1`: initialize print -/

/-- Python ordering `a < b` where `a` may be `None`: under the
Python 2 runtime (which this module's capitalised `Queue` import
fallback targets) `None` compares below every number. -/
def pyLtOpt (a : Option Int) (b : Int) : Bool :=
  match a with
  | none => true
  | some x => decide (x < b)

/-- The `while`-loop of `cmd_O1`, with wall-clock time discretised to
one unit per `time.sleep(1)` iteration.  `hb t` is the value of
`self.heartbeat` as observed at time `t`.  The guard
`startTs > time.time() - HEARTBEAT_TIMEOUT` bounds the loop to 11 time
units, so fuel 12 never runs out. -/
def o1WaitLoop (hb : Int → Option Int) (startTs : Int) : Nat → Int → Int
  | 0, t => t
  | fuel + 1, t =>
    if (hb t).isNone && pyLtOpt (hb t) (t - HEARTBEAT_TIMEOUT)
        && decide (startTs > t - HEARTBEAT_TIMEOUT) then
      o1WaitLoop hb startTs fuel (t + 1)
    else t

/-- Handler `cmd_O1`: initialize the print.  `connected` is the `_check_P2`
result, `cl` is `gcmd.get_commandline()`, `startTs` the call time.
On an `Except.error` result no effect is performed (the queue put,
`PAUSE` script and final notice are all after the raise point). -/
def cmd_O1 (connected : Bool) (hb : Int → Option Int) (startTs : Int)
    (cl : String) : Except PyErr (List Effect) :=
  if !connected then
    .ok [.logInfo "Initializing print with Pallete 2", .respondInfo INFO_NOT_CONNECTED]
  else
    let t := o1WaitLoop hb startTs 12 startTs
    if pyLtOpt (hb t) (t - HEARTBEAT_TIMEOUT) then
      .error (.commandError "No response from Palette 2 when initializing")
    else
      .ok [.logInfo "Initializing print with Pallete 2", .putQueue (some cl),
           .runScript "PAUSE",
           .respondInfo "Palette 2 waiting on user to complete setup"]

/-! ### Device-originated Omega response handlers (`cmd_P2_*`)

Each receives the parameter tokens of the inbound line.  An
`Except.error` models an uncaught Python exception escaping the
handler. -/

/-- Handler `cmd_P2_O20`: the device requests the next piece of print data.
Table accesses (`omega_header[...]`, `omega_splices[...]`,
`omega_algorithms[...]`) are unguarded in the source: an out-of-range
counter raises `IndexError`. -/
def cmd_P2_O20 (st : P2State) (params : List String) :
    Except PyErr (P2State × List Effect) :=
  if !st.is_printing then .ok (st, []) else
  match pyListGetN params 0 with
  | .error e => .error e
  | .ok p0 =>
    if p0 = "D5" then .ok (st, [.logInfo "First print on Palette"]) else
    match pyInt 10 (pyStrDrop p0 1) with
    | none => .ok (st, [.logError "O20 command has invalid parameters"])
    | some n =>
      if n = 0 then
        match pyListGetN st.omega_header st.omega_header_counter with
        | .error e => .error e
        | .ok h =>
          .ok ({ st with omega_header_counter := st.omega_header_counter + 1 },
               [.logInfo "Sending omega header", .putQueue h])
      else if n = 1 then
        match pyListGetN st.omega_splices st.omega_splices_counter with
        | .error e => .error e
        | .ok splice =>
          .ok ({ st with omega_splices_counter := st.omega_splices_counter + 1 },
               [.logInfo "Sending splice info",
                .putQueue (some ("O30 D" ++ toString splice.1 ++ " D" ++ splice.2))])
      else if n = 2 then
        .ok (st, [.logInfo "Sending currnet ping info", .putQueue st.omega_current_ping])
      else if n = 4 then
        match pyListGetN st.omega_algorithms st.omega_algorithms_counter with
        | .error e => .error e
        | .ok alg =>
          .ok ({ st with omega_algorithms_counter := st.omega_algorithms_counter + 1 },
               [.logInfo "Sending algorithm info", .putQueue (some alg)])
      else if n = 8 then
        .ok (st, [.logInfo "Resending the last command to Palette 2",
                  .putQueue (some st.omega_last_command)])
      else .ok (st, [])

/-- Handler `cmd_P2_O34`: ping/pong ingestion.  The source runs
`percent = float(params[1][1:])` before inspecting `params[0]`, with no
`try`/`except` anywhere in the handler: a parse failure raises
`ValueError` out of the handler. -/
def cmd_P2_O34 (st : P2State) (params : List String) :
    Except PyErr (P2State × List Effect) :=
  if !st.is_printing then .ok (st, []) else
  match params with
  | p0 :: p1 :: _ :: _ =>
    match pyFloat (pyStrDrop p1 1) with
    | none => .error .valueError
    | some percent =>
      if p0 = "D1" then
        let number := st.omega_pings.length + 1
        .ok ({ st with omega_pings := st.omega_pings ++ [⟨number, percent⟩] },
             [.logInfo "Ping"])
      else if p0 = "D2" then
        let number := st.omega_pongs.length + 1
        .ok ({ st with omega_pongs := st.omega_pongs ++ [⟨number, percent⟩] },
             [.logInfo "Pong"])
      else .ok (st, [])
  | _ => .ok (st, [])

/-- Handler `cmd_P2_O40`: resume request; runs the host `RESUME` script. -/
def cmd_P2_O40 (st : P2State) (_params : List String) :
    Except PyErr (P2State × List Effect) :=
  .ok (st, [.logInfo "Resume request from Palette 2", .runScript "RESUME"])

/-- The catalog filter of `cmd_P2_O50`:
`[file for (file, size) in get_file_list(...) if ".mcf.gcode" in file]`. -/
def filterMcf (fl : List (String × Nat)) : List String :=
  (fl.filter (fun fs => strContainsSub fs.1 ".mcf.gcode")).map (·.1)

/-- Handler `cmd_P2_O50`: firmware response.  The version branch is taken only
when `len(params) > 1`; it compares `params[0][1:]` lexicographically
against `"9.0.9"` and raises a command error when below.  Otherwise the
handler queries the `virtual_sdcard` collaborator (modelled by
`env.fileList`, assumed present), stores the filtered catalog and
enqueues one `O51 D<file>` per file followed by `O52`. -/
def cmd_P2_O50 (env : Env) (st : P2State) (params : List String) :
    Except PyErr (P2State × List Effect) :=
  if params.length > 1 then
    match params with
    | p0 :: _ =>
      let fw := pyStrDrop p0 1
      if pyStrLt fw "9.0.9" then
        .error (.commandError
          "Palette 2 firmware version is too old, update to at least 9.0.9")
      else .ok (st, [.logInfo "Palette 2 firmware version detected"])
    | [] => .error .indexError
  else
    let files := filterMcf env.fileList
    .ok ({ st with files := files },
         files.map (fun file => Effect.putQueue (some (COMMAND_FILENAME ++ " D" ++ file)))
           ++ [.putQueue (some COMMAND_FILENAMES_DONE)])

/-- Handler `cmd_P2_O53`: file selection.  When `params[0] == "D1"`, the hex
index `params[1][1:]` is resolved against `self.files[::-1]`; any
exception (`ValueError` from `int`, `IndexError` from the lookup) is
caught and logged. -/
def cmd_P2_O53 (st : P2State) (params : List String) :
    Except PyErr (P2State × List Effect) :=
  match params with
  | p0 :: p1 :: _ =>
    if p0 = "D1" then
      match pyInt 16 (pyStrDrop p1 1) with
      | none => .ok (st, [.logError "O53 has invalid command parameters"])
      | some idx =>
        match pyIndexGet st.files.reverse idx with
        | .error _ => .ok (st, [.logError "O53 has invalid command parameters"])
        | .ok file =>
          .ok (st, [.runScript ("SDCARD_PRINT_FILE FILENAME=" ++ file)])
    else .ok (st, [])
  | _ => .ok (st, [])

/-- Handler `cmd_P2_O88`: error report; parse failures (including a missing
`params[0]`) are caught inside the handler's `try`. -/
def cmd_P2_O88 (st : P2State) (params : List String) :
    Except PyErr (P2State × List Effect) :=
  match params with
  | p0 :: _ =>
    match pyInt 16 (pyStrDrop p0 1) with
    | some err =>
      .ok (st, [.logError "Palette 2 error detected",
                .logError ("Palette 2 error code " ++ toString err)])
    | none =>
      .ok (st, [.logError "Palette 2 error detected",
                .logError "Unable to parse Palette 2 error"])
  | [] =>
    .ok (st, [.logError "Palette 2 error detected",
              .logError "Unable to parse Palette 2 error"])

/-! ### The declarative parameter matcher and `cmd_P2_O97` -/

/-- One entry of the matcher table:
`[action, minParamCount, ...expectedParamValues]`. -/
structure OmegaMatcher where
  action : P2State → List String → Except PyErr (P2State × List Effect)
  minCount : Nat
  expected : List String

/-- The comprehension
`all([match_params[i] == params[i] for i in range(len(match_params))])`:
Python materialises every comparison first, so when `match_params` is
longer than `params` an `IndexError` is raised even if an earlier
comparison already failed. -/
def pyPrefixEq (expected params : List String) : Except PyErr Bool :=
  if expected.length ≤ params.length then
    .ok (decide (params.take expected.length = expected))
  else .error .indexError

/-- Model of `_param_Matcher`: walk the table in order; the first entry with
`len(params) > minCount` whose expected values equal the corresponding
actual parameters fires, and the walk stops.  Returns the fired flag
(the source's `True`/`False` result). -/
def param_Matcher (ms : List OmegaMatcher) (st : P2State) (params : List String) :
    Except PyErr (P2State × List Effect × Bool) :=
  match ms with
  | [] => .ok (st, ([], false))
  | m :: rest =>
    if params.length > m.minCount then
      match pyPrefixEq m.expected params with
      | .error e => .error e
      | .ok true =>
        match m.action st params with
        | .error e => .error e
        | .ok (st', effs) => .ok (st', (effs, true))
      | .ok false => param_Matcher rest st params
    else param_Matcher rest st params

/-- Action `printCancelling` (local to `cmd_P2_O97`). -/
def printCancelling (st : P2State) (_params : List String) :
    Except PyErr (P2State × List Effect) :=
  .ok (st, [.logDebug "Print Cancelling", .runScript "CANCEL_PRINT"])

/-- Action `printCancelled` (local to `cmd_P2_O97`). -/
def printCancelled (st : P2State) (_params : List String) :
    Except PyErr (P2State × List Effect) :=
  .ok ({ st with is_printing := false }, [.logDebug "Print Cancelled"])

/-- Action `loadingOffsetStart` (local to `cmd_P2_O97`). -/
def loadingOffsetStart (st : P2State) (_params : List String) :
    Except PyErr (P2State × List Effect) :=
  .ok (st, [.logInfo "Waiting for user to load filament into printer"])

/-- Action `loadingOffset` (local to `cmd_P2_O97`): `int(params[1][1:], 16)`
is not guarded, but the entry's `minCount = 2` guarantees `params[1]`
exists whenever it fires. -/
def loadingOffset (st : P2State) (params : List String) :
    Except PyErr (P2State × List Effect) :=
  match params with
  | _ :: p1 :: _ =>
    match pyInt 16 (pyStrDrop p1 1) with
    | some remaining =>
      .ok (st, [.logDebug ("Loading filamant remaining " ++ toString remaining)])
    | none => .error .valueError
  | _ => .error .indexError

/-- Action `feedrateStart` (local to `cmd_P2_O97`): `M220 S%d` with
`feedrate_splice * 100` (`%d` truncates; the configured fraction is in
`[0,1]`, so truncation is `Rat.floor`). -/
def feedrateStart (env : Env) (st : P2State) (_params : List String) :
    Except PyErr (P2State × List Effect) :=
  .ok (st, [.logInfo "Setting feedrate for splice",
            .runScript ("M220 S" ++ toString (Rat.floor (env.feedrate_splice * 100)))])

/-- Action `feedrateEnd` (local to `cmd_P2_O97`). -/
def feedrateEnd (env : Env) (st : P2State) (_params : List String) :
    Except PyErr (P2State × List Effect) :=
  .ok (st, [.logInfo "Setting feedrate splice done",
            .runScript ("M220 S" ++ toString (Rat.floor (env.feedrate_normal * 100)))])

/-- The matcher table built by `cmd_P2_O97`: the four print-state
entries are only registered while printing; the two feedrate entries
are always appended after them. -/
def o97Matchers (env : Env) (printing : Bool) : List OmegaMatcher :=
  (if printing then
    [⟨printCancelling, 2, ["U0", "D2"]⟩,
     ⟨printCancelled, 2, ["U0", "D3"]⟩,
     ⟨loadingOffsetStart, 1, ["U39"]⟩,
     ⟨loadingOffset, 2, ["U39"]⟩]
   else [])
  ++ [⟨feedrateStart env, 2, ["U25", "D0"]⟩,
      ⟨feedrateEnd env, 2, ["U25", "D1"]⟩]

/-- Handler `cmd_P2_O97`: status opcode, dispatched through `_param_Matcher`
(the boolean result is discarded by the source). -/
def cmd_P2_O97 (env : Env) (st : P2State) (params : List String) :
    Except PyErr (P2State × List Effect) :=
  match param_Matcher (o97Matchers env st.is_printing) st params with
  | .error e => .error e
  | .ok (st', effs, _) => .ok (st', effs)

/-- Handler `cmd_P2_O100`: pause request from the device; the body runs the
`RESUME` script. -/
def cmd_P2_O100 (st : P2State) (_params : List String) :
    Except PyErr (P2State × List Effect) :=
  .ok (st, [.logInfo "Pause request from Palette 2", .runScript "RESUME"])

/-- Handler `cmd_P2_0102` — spelled with a digit zero in the source, not the
letter `O`: logs that smart load is unsupported. -/
def cmd_P2_0102 (st : P2State) (_params : List String) :
    Except PyErr (P2State × List Effect) :=
  .ok (st, [.logWarning "Smart load isn't supported, ignoring command to start smart load"])

/-! ### The Omega dispatcher `cmd_P2` -/

/-- The parameter validation of `cmd_P2`:
`res = [i for i in params if i[0] == "D" or i[0] == "U"]; not all(res)`.
`all` tests the *truthiness* of the strings kept by the filter (all of
which are non-empty).  Split tokens are never empty, so `i[0]` is
modelled by `i[:1]`. -/
def omega_param_check (params : List String) : Bool :=
  (params.filter (fun i => pyStrTake i 1 == "D" || pyStrTake i 1 == "U")).all
    (fun s => s != "")

/-- The attribute table of `getattr(self, 'cmd_P2_' + ocode, None)`:
exactly the `cmd_P2_*` methods the class defines, under their source
spellings. -/
def p2Handlers :
    List (String × (Env → P2State → List String → Except PyErr (P2State × List Effect))) :=
  [("cmd_P2_O20", fun _ => cmd_P2_O20),
   ("cmd_P2_O34", fun _ => cmd_P2_O34),
   ("cmd_P2_O40", fun _ => cmd_P2_O40),
   ("cmd_P2_O50", cmd_P2_O50),
   ("cmd_P2_O53", fun _ => cmd_P2_O53),
   ("cmd_P2_O88", fun _ => cmd_P2_O88),
   ("cmd_P2_O97", cmd_P2_O97),
   ("cmd_P2_O100", fun _ => cmd_P2_O100),
   ("cmd_P2_0102", fun _ => cmd_P2_0102)]

/-- Model of the `getattr` lookup by handler name. -/
def lookupHandler (name : String) :
    Option (Env → P2State → List String → Except PyErr (P2State × List Effect)) :=
  (p2Handlers.find? (fun p => p.1 == name)).map (·.2)

/-- Dispatcher `cmd_P2`: split the device line, validate parameter sigils, then
route to the handler named `cmd_P2_<ocode>` (missing handlers are
silently ignored). -/
def cmd_P2 (env : Env) (st : P2State) (line : String) :
    Except PyErr (P2State × List Effect) :=
  match pySplit line with
  | [] => .error .indexError
  | ocode :: params =>
    if params.length ≠ 0 && !omega_param_check params then
      .ok (st, [.logError "Omega parameters are invalid"])
    else
      match lookupHandler ("cmd_P2_" ++ ocode) with
      | some f => f env st params
      | none => .ok (st, [])

/-! ### One iteration of the Reader Loop -/

/-- Reader-loop state: the session object plus `self.heartbeat`. -/
structure RState where
  p2 : P2State
  heartbeat : Option Int
deriving DecidableEq, Repr

/-- One iteration of the `while serial.is_open` body of `_run_Read`:
`raw` is the (already decoded and stripped) line read, `none` on a read
timeout; `now` the current time.  The body has no `try`/`except`, so an
exception escaping `cmd_P2` terminates the loop (and the thread). -/
def run_Read_step (env : Env) (rs : RState) (raw : Option String) (now : Int) :
    Except PyErr (RState × List Effect) :=
  let handled : Except PyErr (RState × List Effect) :=
    match raw with
    | none => .ok (rs, [])
    | some text_line =>
      if text_line = COMMAND_HEARTBEAT then
        .ok ({ rs with heartbeat := some now }, [])
      else
        match pyStrGet text_line 0 with
        | .error e => .error e
        | .ok c =>
          if c = 'O' then
            match cmd_P2 env rs.p2 text_line with
            | .error e => .error e
            | .ok (st', effs) => .ok ({ rs with p2 := st' }, effs)
          else .ok (rs, [])
  match handled with
  | .error e => .error e
  | .ok (rs1, effs) =>
    match rs1.heartbeat with
    | some h =>
      if h < now - HEARTBEAT_TIMEOUT then
        .ok (rs1, effs ++
          [.logError "P2 has not responded to heartbeat, Palette will disconnect",
           .disconnect])
      else .ok (rs1, effs)
    | none => .ok (rs1, effs)

section Sanity

example : pySplit "O30 D0  D12.5" = ["O30", "D0", "D12.5"] := by decide
example : pyInt 10 "12" = some 12 := by decide
example : pyInt 10 "-3" = some (-3) := by decide
example : pyInt 10 "x" = none := by decide
example : pyInt 16 "1A" = some 26 := by decide
example : (pyFloat "12.5").isSome = true := rfl
example : pyFloat "x" = none := by decide
example : strContainsSub "a.mcf.gcode" ".mcf.gcode" = true := by decide
example : strContainsSub "a.gcode" ".mcf.gcode" = false := by decide
example : pyIndexGet ["a", "b"] (-1) = .ok "b" := rfl
example : pyIndexGet ["a", "b"] 2 = .error .indexError := rfl

example : (cmd_O30 initState "O30 D0 D12.5").1.omega_splices.length = 1 := rfl

end Sanity

/-! ### Concrete fixtures used by the claim theorems -/

/-- An environment with an empty file catalog. -/
def env0 : Env := ⟨[], 4 / 5, 1⟩

/-- An environment whose `virtual_sdcard` holds two print files and one
non-print file. -/
def envAB : Env := ⟨[("a.mcf.gcode", 1), ("x.txt", 2), ("b.mcf.gcode", 3)], 4 / 5, 1⟩

/-- A freshly initialised session that is printing. -/
def stPrinting : P2State := { initState with is_printing := true }

/-- A printing session whose header counter has consumed all 9 slots. -/
def stHdrFull : P2State := { stPrinting with omega_header_counter := 9 }

/-- A fully populated mid-print session (used to exercise the session
reset). -/
def stSession : P2State :=
  { files := ["a.mcf.gcode"]
    omega_algorithms := ["O32 D1 D0"]
    omega_algorithms_counter := 1
    omega_splices := [(0, "12.5")]
    omega_splices_counter := 1
    omega_pings := [⟨1, 50⟩]
    omega_pongs := [⟨1, 51⟩]
    omega_current_ping := some "O31 D64"
    omega_header := (List.replicate 9 none).set 0 (some "O21 Dold")
    omega_header_counter := 2
    omega_last_command := "O99"
    omega_drives := ["U60", "U61"]
    omega_drivers := []
    is_printing := true }

/-! ### Helper lemmas -/

theorem pyListGetN_ok_lt {α : Type} {l : List α} {i : Nat} {a : α}
    (h : pyListGetN l i = .ok a) : i < l.length := by
  by_contra hn
  unfold pyListGetN at h
  rw [List.get?_eq_none.mpr (Nat.le_of_not_lt hn)] at h
  cases h

theorem pyListGetN_err {α : Type} {l : List α} {i : Nat}
    (h : l.length ≤ i) : pyListGetN l i = .error .indexError := by
  unfold pyListGetN
  rw [List.get?_eq_none.mpr h]

theorem pyIndexGet_oob {α : Type} {l : List α} {n : Int}
    (h : (l.length : Int) ≤ n ∨ n < -(l.length : Int)) :
    pyIndexGet l n = .error .indexError := by
  unfold pyIndexGet
  rcases h with h | h
  · have h0 : ¬ n < 0 := by omega
    have h1 : ¬ n < (l.length : Int) := by omega
    simp [h0, h1]
  · have h0 : n < 0 := by omega
    have h1 : (l.length : Int) + n < 0 := by omega
    simp [h0, h1]

/-! ### Claim C1 -/

/-- The invariant claimed for the sequential-consumption counters. -/
def counterInv (st : P2State) : Prop :=
  st.omega_header_counter ≤ st.omega_header.length ∧
  st.omega_splices_counter ≤ st.omega_splices.length ∧
  st.omega_algorithms_counter ≤ st.omega_algorithms.length

/-- Claim C1, counterexample.  The claim says an out-of-range
"send next" request is a contained, logged error and the Reader Loop
keeps iterating; in fact, for a printing session with an empty splice
table, one Reader-Loop iteration on `O20 D1` raises an uncaught
`IndexError` out of the handler, through the dispatcher, and out of the
loop body (killing the read thread). -/
theorem run_Read_O20_out_of_range_raises :
    run_Read_step env0 ⟨stPrinting, some 0⟩ (some "O20 D1") 0 =
      .error .indexError := rfl

/-- Claim C1, amended.  The counter part of the claim holds: every
successful `cmd_P2_O20` run preserves `counterInv` (each counter is
incremented only after an in-range table access).  But an out-of-range
request for a header (`n = 0`), splice (`n = 1`) or algorithm
(`n = 4`) raises `IndexError` instead of being logged and
contained. -/
theorem cmd_P2_O20_counter_spec (st : P2State) :
    (∀ params st' effs, counterInv st →
      cmd_P2_O20 st params = .ok (st', effs) → counterInv st') ∧
    (st.is_printing = true → st.omega_header.length ≤ st.omega_header_counter →
      cmd_P2_O20 st ["D0"] = .error .indexError) ∧
    (st.is_printing = true → st.omega_splices.length ≤ st.omega_splices_counter →
      cmd_P2_O20 st ["D1"] = .error .indexError) ∧
    (st.is_printing = true → st.omega_algorithms.length ≤ st.omega_algorithms_counter →
      cmd_P2_O20 st ["D4"] = .error .indexError) := by
  refine ⟨?_, ?_, ?_, ?_⟩
  · intro params st' effs hinv heq
    unfold cmd_P2_O20 at heq
    split at heq
    · cases heq; exact hinv
    · split at heq
      · cases heq
      · split at heq
        · cases heq; exact hinv
        · split at heq
          · cases heq; exact hinv
          · split at heq
            · split at heq
              · cases heq
              · rename_i hget
                cases heq
                exact ⟨Nat.succ_le_of_lt (pyListGetN_ok_lt hget), hinv.2.1, hinv.2.2⟩
            · split at heq
              · split at heq
                · cases heq
                · rename_i hget
                  cases heq
                  exact ⟨hinv.1, Nat.succ_le_of_lt (pyListGetN_ok_lt hget), hinv.2.2⟩
              · split at heq
                · cases heq; exact hinv
                · split at heq
                  · split at heq
                    · cases heq
                    · rename_i hget
                      cases heq
                      exact ⟨hinv.1, hinv.2.1, Nat.succ_le_of_lt (pyListGetN_ok_lt hget)⟩
                  · split at heq
                    · cases heq; exact hinv
                    · cases heq; exact hinv
  · intro hp hle
    have h0 : pyListGetN ["D0"] 0 = .ok "D0" := rfl
    have h1 : pyInt 10 (pyStrDrop "D0" 1) = some 0 := rfl
    simp [cmd_P2_O20, hp, h0, h1, pyListGetN_err hle]
  · intro hp hle
    have h0 : pyListGetN ["D1"] 0 = .ok "D1" := rfl
    have h1 : pyInt 10 (pyStrDrop "D1" 1) = some 1 := rfl
    simp [cmd_P2_O20, hp, h0, h1, pyListGetN_err hle]
  · intro hp hle
    have h0 : pyListGetN ["D4"] 0 = .ok "D4" := rfl
    have h1 : pyInt 10 (pyStrDrop "D4" 1) = some 4 := rfl
    simp [cmd_P2_O20, hp, h0, h1, pyListGetN_err hle]

/-- Witness for `cmd_P2_O20_counter_spec` at concrete inputs: the
preservation part on a successful `n = 8` resend request, and the three
raise parts on saturated counters. -/
theorem cmd_P2_O20_counter_spec_witness :
    counterInv stPrinting ∧
    cmd_P2_O20 stHdrFull ["D0"] = .error .indexError ∧
    cmd_P2_O20 stPrinting ["D1"] = .error .indexError ∧
    cmd_P2_O20 stPrinting ["D4"] = .error .indexError :=
  ⟨(cmd_P2_O20_counter_spec stPrinting).1 ["D8"] stPrinting
      [.logInfo "Resending the last command to Palette 2", .putQueue (some "")]
      ⟨by decide, by decide, by decide⟩ rfl,
   (cmd_P2_O20_counter_spec stHdrFull).2.1 rfl (by decide),
   (cmd_P2_O20_counter_spec stPrinting).2.2.1 rfl (by decide),
   (cmd_P2_O20_counter_spec stPrinting).2.2.2 rfl (by decide)⟩

/-! ### Claim C2 -/

/-- Claim C2 (code bug).  The dispatcher's malformed-parameter branch
is unreachable: `res` keeps exactly the tokens that do start with `D`
or `U`, and `all(res)` only tests the truthiness of those (non-empty)
strings — with `all([]) == True` — so `omega_param_check` is constantly
true and no line is ever dropped for a bad sigil.  Consequently the
failing input `O100 X1`, whose parameter starts with neither sigil, is
routed to `cmd_P2_O100` and runs the `RESUME` script instead of being
logged as malformed and dropped. -/
theorem cmd_P2_sigil_check_never_fires :
    (∀ params : List String, omega_param_check params = true) ∧
    cmd_P2 env0 stPrinting "O100 X1" =
      .ok (stPrinting,
        [.logInfo "Pause request from Palette 2", .runScript "RESUME"]) := by
  constructor
  · intro params
    rw [omega_param_check, List.all_eq_true]
    intro s hs
    rw [List.mem_filter] at hs
    by_cases hse : s = ""
    · subst hse
      exact absurd hs.2 (by decide)
    · simpa [bne_iff_ne] using hse
  · rfl

/-! ### Claim C3 -/

/-- Claim C3, counterexample.  `"9.0.8"` is lexicographically below the
minimum `"9.0.9"`, yet an `O50` response carrying exactly one parameter
(`D9.0.8`, a reported version) is not version-checked: the handler's
branch condition is `len(params) > 1`, so the single-parameter line
takes the file-catalog path and completes normally. -/
theorem cmd_P2_O50_single_param_version_unchecked :
    pyStrLt "9.0.8" "9.0.9" = true ∧
    cmd_P2_O50 envAB initState ["D9.0.8"] =
      .ok ({ initState with files := ["a.mcf.gcode", "b.mcf.gcode"] },
        [.putQueue (some "O51 Da.mcf.gcode"), .putQueue (some "O51 Db.mcf.gcode"),
         .putQueue (some "O52")]) := ⟨rfl, rfl⟩

/-- Claim C3, amended.  With *more than one* parameter present, the
version `params[0][1:]` is gated: lexicographically below `"9.0.9"`
raises the "update firmware" command error, at or above proceeds
normally.  With one or zero parameters the handler instead takes the
file-catalog path: it filters the collaborator's list to names
containing `".mcf.gcode"`, enqueues one `O51 D<file>` per file in list
order, then the single `O52` marker. -/
theorem cmd_P2_O50_firmware_gate (env : Env) (st : P2State) (p0 p1 : String)
    (rest ps : List String) :
    (pyStrLt (pyStrDrop p0 1) "9.0.9" = true →
      cmd_P2_O50 env st (p0 :: p1 :: rest) =
        .error (.commandError
          "Palette 2 firmware version is too old, update to at least 9.0.9")) ∧
    (pyStrLt (pyStrDrop p0 1) "9.0.9" = false →
      cmd_P2_O50 env st (p0 :: p1 :: rest) =
        .ok (st, [.logInfo "Palette 2 firmware version detected"])) ∧
    (ps.length ≤ 1 →
      cmd_P2_O50 env st ps =
        .ok ({ st with files := filterMcf env.fileList },
          (filterMcf env.fileList).map
            (fun file => Effect.putQueue (some (COMMAND_FILENAME ++ " D" ++ file)))
            ++ [.putQueue (some COMMAND_FILENAMES_DONE)])) := by
  have hlen : (p0 :: p1 :: rest).length > 1 := by simp
  refine ⟨?_, ?_, ?_⟩
  · intro h
    simp [cmd_P2_O50, hlen, h]
  · intro h
    simp [cmd_P2_O50, hlen, h]
  · intro h
    have h2 : ¬ (ps.length > 1) := by omega
    simp [cmd_P2_O50, h2]

/-- Witness for `cmd_P2_O50_firmware_gate`: the gate on versions one
below and equal to the minimum, and the round-trip catalog scenario —
the collaborator returning `a.mcf.gcode` and `b.mcf.gcode` (plus a
non-print file that is filtered out) yields the two filename
announcements followed by the completion marker, in order. -/
theorem cmd_P2_O50_firmware_gate_witness :
    cmd_P2_O50 envAB initState ["D9.0.8", "D1"] =
      .error (.commandError
        "Palette 2 firmware version is too old, update to at least 9.0.9") ∧
    cmd_P2_O50 envAB initState ["D9.0.9", "D1"] =
      .ok (initState, [.logInfo "Palette 2 firmware version detected"]) ∧
    cmd_P2_O50 envAB initState [] =
      .ok ({ initState with files := ["a.mcf.gcode", "b.mcf.gcode"] },
        [.putQueue (some "O51 Da.mcf.gcode"), .putQueue (some "O51 Db.mcf.gcode"),
         .putQueue (some "O52")]) :=
  ⟨(cmd_P2_O50_firmware_gate envAB initState "D9.0.8" "D1" [] []).1 rfl,
   (cmd_P2_O50_firmware_gate envAB initState "D9.0.9" "D1" [] []).2.1 rfl,
   ((cmd_P2_O50_firmware_gate envAB initState "" "" [] []).2.2 (by decide)).trans rfl⟩

/-! ### Claim C4 -/

theorem o1WaitLoop_none (hb : Int → Option Int) (ts : Int)
    (h : ∀ u, ts ≤ u → u ≤ ts + HEARTBEAT_TIMEOUT → hb u = none) :
    ∀ fuel t, ts ≤ t → t ≤ ts + HEARTBEAT_TIMEOUT →
      (ts + HEARTBEAT_TIMEOUT - t).toNat ≤ fuel →
      o1WaitLoop hb ts fuel t = ts + HEARTBEAT_TIMEOUT := by
  intro fuel
  induction fuel with
  | zero =>
    intro t h1 h2 h3
    have ht : t = ts + HEARTBEAT_TIMEOUT := by
      simp only [HEARTBEAT_TIMEOUT] at *
      omega
    rw [ht, o1WaitLoop]
  | succ fuel ih =>
    intro t h1 h2 h3
    rw [o1WaitLoop]
    by_cases ht : t = ts + HEARTBEAT_TIMEOUT
    · subst ht
      have hg : ¬ (ts > ts + HEARTBEAT_TIMEOUT - HEARTBEAT_TIMEOUT) := by
        simp only [HEARTBEAT_TIMEOUT]; omega
      simp [hg]
    · have hlt : t < ts + HEARTBEAT_TIMEOUT := lt_of_le_of_ne h2 ht
      have hg : ts > t - HEARTBEAT_TIMEOUT := by
        simp only [HEARTBEAT_TIMEOUT] at *; omega
      rw [h t h1 h2]
      simp only [Option.isNone_none, pyLtOpt, hg, decide_True, Bool.and_self,
        Bool.true_and, if_true]
      exact ih (t + 1) (by omega) (by omega)
        (by simp only [HEARTBEAT_TIMEOUT] at *; omega)

/-- Claim C4.  `cmd_O1` while connected: if no heartbeat is observed
anywhere in the 11-second wait window, the handler raises the
user-facing "No response from Palette 2 when initializing" command
error (the error return carries no effects, so nothing is enqueued);
if a sufficiently recent heartbeat is already present at call time, the
handler enqueues the `O1` command line and runs the host `PAUSE`
script.  (`None`-vs-number comparisons follow the Python 2 runtime,
which this module's capitalised `Queue` import fallback targets:
`None` orders below every number.) -/
theorem cmd_O1_init_spec (hb : Int → Option Int) (ts : Int) (cl : String) :
    ((∀ u, ts ≤ u → u ≤ ts + HEARTBEAT_TIMEOUT → hb u = none) →
      cmd_O1 true hb ts cl =
        .error (.commandError "No response from Palette 2 when initializing")) ∧
    (∀ v, hb ts = some v → ts - HEARTBEAT_TIMEOUT ≤ v →
      cmd_O1 true hb ts cl =
        .ok [.logInfo "Initializing print with Pallete 2", .putQueue (some cl),
             .runScript "PAUSE",
             .respondInfo "Palette 2 waiting on user to complete setup"]) := by
  constructor
  · intro h
    have hT := o1WaitLoop_none hb ts h 12 ts le_rfl (by simp [HEARTBEAT_TIMEOUT])
      (by simp [HEARTBEAT_TIMEOUT])
    have hN := h (ts + HEARTBEAT_TIMEOUT) (by simp [HEARTBEAT_TIMEOUT]) le_rfl
    simp [cmd_O1, hT, hN, pyLtOpt]
  · intro v hv hrec
    have hstop : o1WaitLoop hb ts 12 ts = ts := by
      rw [o1WaitLoop, hv]
      simp
    have hnotlt : ¬ (v < ts - HEARTBEAT_TIMEOUT) := by omega
    simp [cmd_O1, hstop, hv, pyLtOpt, hnotlt]

/-- Witness for `cmd_O1_init_spec`: a trace with no heartbeat at all
raises the command error; a trace whose heartbeat is current at call
time enqueues the line and pauses. -/
theorem cmd_O1_init_spec_witness :
    cmd_O1 true (fun _ => none) 0 "O1 D1000" =
      .error (.commandError "No response from Palette 2 when initializing") ∧
    cmd_O1 true (fun _ => some 100) 100 "O1 D1000" =
      .ok [.logInfo "Initializing print with Pallete 2", .putQueue (some "O1 D1000"),
           .runScript "PAUSE",
           .respondInfo "Palette 2 waiting on user to complete setup"] :=
  ⟨(cmd_O1_init_spec (fun _ => none) 0 "O1 D1000").1 (fun _ _ _ => rfl),
   (cmd_O1_init_spec (fun _ => some 100) 100 "O1 D1000").2 100 rfl (by decide)⟩

/-! ### Claim C5 -/

/-- Claim C5, counterexample.  The claim says every session-state
handler catches its own parse failures.  `cmd_P2_O34` does not: for a
printing session, the inbound line `O34 D1 DX D0` (non-numeric percent
field) makes `float(params[1][1:])` raise `ValueError`, which escapes
the handler and the dispatcher uncaught. -/
theorem cmd_P2_O34_uncaught_parse_error :
    cmd_P2 env0 stPrinting "O34 D1 DX D0" = .error .valueError := rfl

/-- Claim C5, amended.  Splice ingestion (`cmd_O30`) does catch its
`int()` parse failure and reports it via an operator-visible notice
without touching the session state; algorithm ingestion (`cmd_O32`)
performs no fallible parse at all; but ping/pong ingestion
(`cmd_P2_O34`) raises an uncaught `ValueError` out of the handler
whenever its percent field fails to parse (for any printing session and
any parameter list of length at least 3). -/
theorem handler_parse_failure_containment (st : P2State) (cl p0 p1 p2 : String)
    (rest : List String) :
    (pyInt 10 (pySlice cl 5 6) = none →
      cmd_O30 st cl = (st, [.respondInfo "Incorrectly formatted splice command"])) ∧
    (cmd_O32 st cl =
      ({ st with omega_algorithms := st.omega_algorithms ++ [pyStrDrop cl 4] },
       [.logDebug "Omega algorithm"])) ∧
    (st.is_printing = true → pyFloat (pyStrDrop p1 1) = none →
      cmd_P2_O34 st (p0 :: p1 :: p2 :: rest) = .error .valueError) := by
  refine ⟨?_, rfl, ?_⟩
  · intro h
    simp [cmd_O30, h]
  · intro hp hf
    simp [cmd_P2_O34, hp, hf]

/-- Witness for `handler_parse_failure_containment`: the contained
`cmd_O30` failure on a non-numeric drive index and the escaping
`cmd_P2_O34` failure on a non-numeric percent. -/
theorem handler_parse_failure_containment_witness :
    cmd_O30 initState "O30 DX D12.5" =
      (initState, [.respondInfo "Incorrectly formatted splice command"]) ∧
    cmd_P2_O34 stPrinting ["D1", "DX", "D0"] = .error .valueError :=
  ⟨(handler_parse_failure_containment initState "O30 DX D12.5" "" "" "" []).1 rfl,
   (handler_parse_failure_containment stPrinting "" "D1" "DX" "D0" []).2.2 rfl rfl⟩

/-! ### Claim C6 -/

/-- Claim C6 (code bug).  Handling a new print-version opcode `O21` on
a fully populated session does clear the splice table, ping and pong
lists, algorithm table, file catalog and the header slots (leaving only
slot 0 holding the new version line), restarts all three consumption
counters at zero and sets the printing flag — but the drive map is NOT
cleared: `_reset` assigns the unused attribute `omega_drivers` (note
the spelling) while the drive map built by `cmd_O25` lives in
`omega_drives`, which survives the reset unchanged (shown here both at
the concrete failing state and for every state). -/
theorem cmd_O21_reset_keeps_drive_map :
    ((cmd_O21 stSession "O21 D30").1.omega_splices = [] ∧
     (cmd_O21 stSession "O21 D30").1.omega_pings = [] ∧
     (cmd_O21 stSession "O21 D30").1.omega_pongs = [] ∧
     (cmd_O21 stSession "O21 D30").1.omega_algorithms = [] ∧
     (cmd_O21 stSession "O21 D30").1.files = [] ∧
     (cmd_O21 stSession "O21 D30").1.omega_header =
       some "O21 D30" :: List.replicate 8 none ∧
     (cmd_O21 stSession "O21 D30").1.omega_header_counter = 0 ∧
     (cmd_O21 stSession "O21 D30").1.omega_splices_counter = 0 ∧
     (cmd_O21 stSession "O21 D30").1.omega_algorithms_counter = 0 ∧
     (cmd_O21 stSession "O21 D30").1.is_printing = true) ∧
    (cmd_O21 stSession "O21 D30").1.omega_drives = ["U60", "U61"] ∧
    (∀ st cl, (cmd_O21 st cl).1.omega_drives = st.omega_drives) :=
  ⟨⟨rfl, rfl, rfl, rfl, rfl, rfl, rfl, rfl, rfl, rfl⟩, rfl, fun _ _ => rfl⟩

/-! ### Claim C7 -/

/-- Claim C7.  File selection `O53 D1 D<hex>`: with the catalog
`["a.mcf.gcode", "b.mcf.gcode"]`, index 0 is resolved against the
reversed catalog to `"b.mcf.gcode"` and a print start is requested for
it; a non-numeric index, or an index outside the valid range of the
reversed catalog, is caught and logged and starts no print. -/
theorem cmd_P2_O53_file_selection (st : P2State) (p : String) :
    (st.files = ["a.mcf.gcode", "b.mcf.gcode"] →
      cmd_P2_O53 st ["D1", "D0"] =
        .ok (st, [.runScript "SDCARD_PRINT_FILE FILENAME=b.mcf.gcode"])) ∧
    (pyInt 16 (pyStrDrop p 1) = none →
      cmd_P2_O53 st ["D1", p] =
        .ok (st, [.logError "O53 has invalid command parameters"])) ∧
    (∀ n : Int, pyInt 16 (pyStrDrop p 1) = some n →
      ((st.files.length : Int) ≤ n ∨ n < -(st.files.length : Int)) →
      cmd_P2_O53 st ["D1", p] =
        .ok (st, [.logError "O53 has invalid command parameters"])) := by
  refine ⟨?_, ?_, ?_⟩
  · intro h
    have hrev : st.files.reverse = ["b.mcf.gcode", "a.mcf.gcode"] := by
      rw [h]
      rfl
    simp [cmd_P2_O53, show pyInt 16 (pyStrDrop "D0" 1) = some 0 from rfl, hrev,
      show pyIndexGet ["b.mcf.gcode", "a.mcf.gcode"] (0 : Int) = .ok "b.mcf.gcode"
        from rfl]
  · intro h
    simp [cmd_P2_O53, h]
  · intro n hn hoob
    have hget : pyIndexGet st.files.reverse n = .error .indexError := by
      apply pyIndexGet_oob
      rw [List.length_reverse]
      exact hoob
    simp [cmd_P2_O53, hn, hget]

/-- Witness for `cmd_P2_O53_file_selection` on the catalog
`["a.mcf.gcode", "b.mcf.gcode"]`: index 0 starts `b.mcf.gcode`, the
non-numeric index `DZ` and the out-of-range index `D5` are logged. -/
theorem cmd_P2_O53_file_selection_witness :
    cmd_P2_O53 { initState with files := ["a.mcf.gcode", "b.mcf.gcode"] }
        ["D1", "D0"] =
      .ok ({ initState with files := ["a.mcf.gcode", "b.mcf.gcode"] },
        [.runScript "SDCARD_PRINT_FILE FILENAME=b.mcf.gcode"]) ∧
    cmd_P2_O53 { initState with files := ["a.mcf.gcode", "b.mcf.gcode"] }
        ["D1", "DZ"] =
      .ok ({ initState with files := ["a.mcf.gcode", "b.mcf.gcode"] },
        [.logError "O53 has invalid command parameters"]) ∧
    cmd_P2_O53 { initState with files := ["a.mcf.gcode", "b.mcf.gcode"] }
        ["D1", "D5"] =
      .ok ({ initState with files := ["a.mcf.gcode", "b.mcf.gcode"] },
        [.logError "O53 has invalid command parameters"]) :=
  ⟨(cmd_P2_O53_file_selection _ "D0").1 rfl,
   (cmd_P2_O53_file_selection _ "DZ").2.1 rfl,
   (cmd_P2_O53_file_selection _ "D5").2.2 5 rfl (by decide)⟩

/-! ### Claim C8 -/

/-- Does a matcher tuple fire on these parameters: at least
`minCount + 1` parameters present, and the expected values equal the
corresponding prefix of the actual parameters. -/
def matcherFires (m : OmegaMatcher) (params : List String) : Bool :=
  decide (params.length > m.minCount) &&
    decide (params.take m.expected.length = m.expected)

/-- The first tuple, in list order, that fires. -/
def firstMatcher (ms : List OmegaMatcher) (params : List String) :
    Option OmegaMatcher :=
  ms.find? (fun m => matcherFires m params)

/-- Claim C8.  For every matcher list given to `_param_Matcher` whose
tuples are well-formed in the way every list the program constructs is
(each tuple's expected-value list is no longer than `minCount + 1`, as
in all six `cmd_P2_O97` entries), the run equals: fire exactly the
first tuple that matches per `matcherFires` — so later tuples that
would also match never fire — and when no tuple matches, fire nothing
and return `false`. -/
theorem param_Matcher_first_match_wins (ms : List OmegaMatcher) (st : P2State)
    (params : List String)
    (hwf : ∀ m ∈ ms, m.expected.length ≤ m.minCount + 1) :
    param_Matcher ms st params =
      match firstMatcher ms params with
      | none => .ok (st, ([], false))
      | some m => (m.action st params).map (fun r => (r.1, (r.2, true))) := by
  induction ms with
  | nil => rfl
  | cons m rest ih =>
    have hm := hwf m (List.mem_cons_self m rest)
    have hrest : ∀ x ∈ rest, x.expected.length ≤ x.minCount + 1 :=
      fun x hx => hwf x (List.mem_cons_of_mem m hx)
    rw [param_Matcher, firstMatcher, List.find?_cons]
    by_cases hlen : params.length > m.minCount
    · have hle : m.expected.length ≤ params.length := le_trans hm hlen
      rw [pyPrefixEq, if_pos hle]
      by_cases hpre : params.take m.expected.length = m.expected
      · have hfire : matcherFires m params = true := by
          simp [matcherFires, hlen, hpre]
        rw [if_pos hlen, hfire]
        simp only [hpre, decide_True, if_true]
        cases m.action st params with
        | error e => rfl
        | ok r => rfl
      · have hfire : matcherFires m params = false := by
          simp [matcherFires, hpre]
        rw [if_pos hlen, hfire]
        simp only [hpre, decide_False]
        exact ih hrest
    · have hfire : matcherFires m params = false := by
        simp [matcherFires, hlen]
      rw [if_neg hlen, hfire]
      exact ih hrest

/-- Witness for `param_Matcher_first_match_wins` on the real matcher
list `cmd_P2_O97` builds while printing, with parameters
`U39 DA D1` that fire both the `loadingOffsetStart` entry (registered
earlier) and the `loadingOffset` entry (registered later): the earlier
entry's action runs, never the later one's. -/
theorem param_Matcher_first_match_wins_witness :
    param_Matcher (o97Matchers envAB true) stPrinting ["U39", "DA", "D1"] =
      .ok (stPrinting,
        ([.logInfo "Waiting for user to load filament into printer"], true)) :=
  (param_Matcher_first_match_wins (o97Matchers envAB true) stPrinting
    ["U39", "DA", "D1"] (by decide)).trans rfl

/-! ### Claim C9 -/

/-- Claim C9 (code bug).  The smart-load handler is spelled
`cmd_P2_0102` with a digit zero, but the dispatcher looks up
`cmd_P2_O102` (letter `O`) for the device's `O102` line: the lookup
fails, so the line is silently ignored — no state change, no outbound
command, no host side effect, and, contrary to the claim, also no
"unsupported" warning is logged; the warning only lives in the
unreachable handler. -/
theorem smart_load_opcode_silently_dropped :
    lookupHandler "cmd_P2_O102" = none ∧
    cmd_P2 env0 stPrinting "O102" = .ok (stPrinting, []) ∧
    cmd_P2_0102 stPrinting [] =
      .ok (stPrinting,
        [.logWarning "Smart load isn't supported, ignoring command to start smart load"]) :=
  ⟨rfl, rfl, rfl⟩

/-! ### Claim C10 -/

/-- Host scripts run by an effect list. -/
def scriptsOf (effs : List Effect) : List String :=
  effs.filterMap (fun e =>
    match e with
    | .runScript s => some s
    | _ => none)

/-- Claim C10.  The pause-request handler `cmd_P2_O100` runs the host
`RESUME` script — the identical script action to the resume-request
handler `cmd_P2_O40` — and never invokes `PAUSE`: for every state and
parameter list its only side effects are an info log and the `RESUME`
script. -/
theorem cmd_P2_O100_invokes_resume (st : P2State) (params : List String) :
    cmd_P2_O100 st params =
      .ok (st, [.logInfo "Pause request from Palette 2", .runScript "RESUME"]) ∧
    cmd_P2_O40 st params =
      .ok (st, [.logInfo "Resume request from Palette 2", .runScript "RESUME"]) ∧
    scriptsOf [.logInfo "Pause request from Palette 2", .runScript "RESUME"] =
      ["RESUME"] ∧
    scriptsOf [.logInfo "Resume request from Palette 2", .runScript "RESUME"] =
      ["RESUME"] ∧
    Effect.runScript "PAUSE" ∉
      [Effect.logInfo "Pause request from Palette 2", Effect.runScript "RESUME"] :=
  ⟨rfl, rfl, rfl, rfl, by decide⟩

end Palette2
